import Mathlib

set_option maxRecDepth 10000

/-!
Verification development for the contract-analysis pipeline in `app.py`.

The program has three core components, embedded below directly from the
source:

* `extraer_texto_con_ocr` (app.py lines 21-60): per-page text acquisition
  with an OCR fallback, returning a pair `(texto, error)` of options.
* `analizar_contrato` (app.py lines 62-101): the field extractor, applying
  a fixed table of twelve Python regular expressions with the flags
  `re.IGNORECASE | re.DOTALL` to the document text.
* `process_files` (app.py lines 114-195): the batch pipeline that
  classifies uploads by suffix, traverses ZIP containers, isolates
  per-document failures, and aggregates successes and error strings.

External libraries are modelled at their observable boundary: a PDF byte
stream is represented by what `fitz.open` yields on it (either a parse
failure or a list of pages, each page carrying its directly-extracted text
and the outcome that `pytesseract.image_to_string` would produce for it),
and a ZIP byte stream by the result of `zipfile.is_zipfile` plus its entry
list.  Python's `re.search` is embedded as an executable backtracking
matcher over a regex AST; the twelve patterns of the source are transcribed
into that AST constructor by constructor.
-/

/-! ## Python character-level semantics

`str.strip` / `str.split` / `\s` in Python treat a fixed set of characters
as whitespace; `\w` matches alphanumerics plus the underscore (for the
Latin-1 range relevant to these Spanish-language documents this includes
the accented letters and the ordinal indicators); `re.IGNORECASE` compares
characters after lowercasing (for Latin-1, uppercase letters are 32 below
their lowercase forms, with the multiplication sign excluded). -/

def esEspacio (c : Char) : Bool :=
  c = ' ' || c = '\t' || c = '\n' || c = '\r' || c = '\x0b' || c = '\x0c' ||
  c = '\x85' || c = '\xa0' || (28 ≤ c.toNat && c.toNat ≤ 31)

def esDigito (c : Char) : Bool :=
  '0' ≤ c && c ≤ '9'

def esPalabra (c : Char) : Bool :=
  c.isAlphanum || c = '_' || c.toNat = 170 || c.toNat = 181 || c.toNat = 186 ||
  (192 ≤ c.toNat && c.toNat ≤ 255 && c.toNat ≠ 215 && c.toNat ≠ 247)

def pyLower (c : Char) : Char :=
  if 65 ≤ c.toNat && c.toNat ≤ 90 then Char.ofNat (c.toNat + 32)
  else if 192 ≤ c.toNat && c.toNat ≤ 222 && c.toNat ≠ 215 then Char.ofNat (c.toNat + 32)
  else c

/-- Python `str.lower()`. -/
def pyLowerStr (s : String) : String :=
  String.mk (s.data.map pyLower)

/-- Python `str.strip()`: remove leading and trailing whitespace. -/
def pyStrip (s : String) : String :=
  String.mk (((s.data.dropWhile esEspacio).reverse.dropWhile esEspacio).reverse)

def pySplitAux : List Char → List Char → List String
  | [], [] => []
  | [], acc => [String.mk acc.reverse]
  | c :: resto, acc =>
    if esEspacio c then
      match acc with
      | [] => pySplitAux resto []
      | _ :: _ => String.mk acc.reverse :: pySplitAux resto []
    else pySplitAux resto (c :: acc)

/-- Python `str.split()` with no argument: split on runs of whitespace,
discarding empty fields. -/
def pySplit (s : String) : List String :=
  pySplitAux s.data []

/-- The cleanup applied to every extracted value in `analizar_contrato`
(app.py line 96): `' '.join(resultado.split()).strip()` — collapse every
whitespace run to a single space and trim the ends. -/
def limpiar (s : String) : String :=
  pyStrip (String.intercalate " " (pySplit s))

/-- Python `str.endswith` (case-sensitive suffix test). -/
def termina (s suf : String) : Bool :=
  List.isSuffixOf suf.data s.data

/-- Python `str.startswith`. -/
def comienza (s pre : String) : Bool :=
  List.isPrefixOf pre.data s.data

/-! ## A regex AST for the pattern table

The AST covers exactly the constructs appearing in the twelve patterns of
`analizar_contrato`: literal characters, character classes (`[...]`,
possibly negated, built from literal items and the escapes `\d`, `\w`,
`\s`, `\S`), the DOTALL dot, concatenation, alternation, greedy and lazy
star, counted repetition `{lo,hi}`, capture groups, and lookahead `(?=)`.
`IGNORECASE` is baked into the character comparison. -/

inductive CItem where
  | ch (c : Char)
  | d
  | w
  | s
  | S
deriving DecidableEq

structure Cls where
  neg : Bool
  items : List CItem
deriving DecidableEq

def citemCoincide (ci : CItem) (c : Char) : Bool :=
  match ci with
  | CItem.ch a => pyLower a == pyLower c
  | CItem.d => esDigito c
  | CItem.w => esPalabra c
  | CItem.s => esEspacio c
  | CItem.S => !esEspacio c

def claseCoincide (cl : Cls) (c : Char) : Bool :=
  if cl.neg then !(cl.items.any (fun ci => citemCoincide ci c))
  else cl.items.any (fun ci => citemCoincide ci c)

inductive Re where
  | eps
  | cls (c : Cls)
  | seq (a b : Re)
  | alt (a b : Re)
  | star (greedy : Bool) (r : Re)
  | repn (lo hi : Nat) (r : Re)
  | group (i : Nat) (r : Re)
  | look (r : Re)
deriving DecidableEq

/-- Size of a regex; used only to compute a generous fuel bound for the
backtracking matcher. -/
def sizeRe : Re → Nat
  | Re.eps => 1
  | Re.cls _ => 1
  | Re.seq a b => sizeRe a + sizeRe b + 1
  | Re.alt a b => sizeRe a + sizeRe b + 1
  | Re.star _ r => sizeRe r + 1
  | Re.repn _ hi r => (hi + 1) * (sizeRe r + 1) + 1
  | Re.group _ r => sizeRe r + 1
  | Re.look r => sizeRe r + 1

/-- Recorded captures: group index paired with the captured characters,
most recent first (so a lookup finds the latest capture, as in Python). -/
abbrev Capturas := List (Nat × List Char)

/-- All ways a regex can match a prefix of the input, in Python's
backtracking preference order: each element is the remaining suffix
together with the captures made so far. -/
abbrev ResultadosM := List (List Char × Capturas)

/-- One step of the backtracking matcher, parametric in the recursive
call.  The preference order of the returned list mirrors Python `re`:
alternation prefers the left branch, a greedy star prefers longer
iterations, a lazy star prefers shorter ones, and a star stops iterating
when its body makes no progress.  A capture group records the consumed
prefix; a lookahead matches without consuming but keeps the captures of
its first (preferred) match. -/
def mrunF (go : Re → List Char → Capturas → ResultadosM) :
    Re → List Char → Capturas → ResultadosM :=
  fun r s caps =>
    match r with
    | Re.eps => [(s, caps)]
    | Re.cls cl =>
      match s with
      | [] => []
      | c :: resto => if claseCoincide cl c then [(resto, caps)] else []
    | Re.seq a b => (go a s caps).flatMap (fun p => go b p.1 p.2)
    | Re.alt a b => go a s caps ++ go b s caps
    | Re.star g cuerpo =>
      let segun := (go cuerpo s caps).flatMap (fun p =>
        if p.1.length < s.length then go (Re.star g cuerpo) p.1 p.2 else [p])
      if g then segun ++ [(s, caps)] else (s, caps) :: segun
    | Re.repn lo hi cuerpo =>
      match lo with
      | 0 =>
        match hi with
        | 0 => [(s, caps)]
        | h + 1 =>
          ((go cuerpo s caps).flatMap (fun p =>
            if p.1.length < s.length then go (Re.repn 0 h cuerpo) p.1 p.2 else [p]))
            ++ [(s, caps)]
      | l + 1 => (go cuerpo s caps).flatMap (fun p => go (Re.repn l (hi - 1) cuerpo) p.1 p.2)
    | Re.group i cuerpo =>
      (go cuerpo s caps).map (fun p => (p.1, (i, s.take (s.length - p.1.length)) :: p.2))
    | Re.look cuerpo =>
      match go cuerpo s caps with
      | [] => []
      | p :: _ => [(s, p.2)]

/-- Fuel-bounded matcher.  The fuel only bounds the recursion depth of one
backtracking path; `fuelPara` below always supplies more than the maximal
possible depth for the patterns of the table, so the bound is never hit. -/
def mrun (fuel : Nat) : Re → List Char → Capturas → ResultadosM :=
  @Nat.rec (fun _ => Re → List Char → Capturas → ResultadosM)
    (fun _ _ _ => []) (fun _ ih => mrunF ih) fuel

/-- Depth budget: along one backtracking path the recursion depth is at
most the pattern size plus a small multiple of the input length (every
star iteration must consume at least one character), so this bound is
generous. -/
def fuelPara (r : Re) (n : Nat) : Nat :=
  (sizeRe r + 10) * (n + 10)

/-- Scan for the leftmost start position at which the regex matches,
taking the first match in backtracking order there — the semantics of
`re.search`. -/
def buscarAux (fuel : Nat) (r : Re) : List Char → Option Capturas
  | [] =>
    match mrun fuel r [] [] with
    | p :: _ => some p.2
    | [] => none
  | c :: resto =>
    match mrun fuel r (c :: resto) [] with
    | p :: _ => some p.2
    | [] => buscarAux fuel r resto

/-- A successful match, reduced to what `analizar_contrato` consumes:
`match.groups()` — for each group index `1..n`, the captured substring or
`none` when the group did not participate in the match. -/
structure PyMatch where
  groups : List (Option String)
deriving DecidableEq

/-- `re.search(patron, texto, re.IGNORECASE | re.DOTALL)` for a pattern
with `n` capture groups. -/
def re_search (r : Re) (n : Nat) (texto : String) : Option PyMatch :=
  match buscarAux (fuelPara r texto.length) r texto.data with
  | none => none
  | some caps =>
    some (PyMatch.mk ((List.range n).map (fun i =>
      (caps.lookup (i + 1)).map (fun l => String.mk l))))

/-! ## Regex construction helpers -/

def rseq (rs : List Re) : Re :=
  match rs with
  | [] => Re.eps
  | [r] => r
  | r :: resto => Re.seq r (rseq resto)

/-- A literal string, character by character (case-insensitive at match
time, like every character comparison here). -/
def rlit (s : String) : Re :=
  rseq (s.data.map (fun c => Re.cls (Cls.mk false [CItem.ch c])))

def clase (items : List CItem) : Re :=
  Re.cls (Cls.mk false items)

def claseNeg (items : List CItem) : Re :=
  Re.cls (Cls.mk true items)

/-- `.` under `re.DOTALL`: matches any character. -/
def rany : Re :=
  Re.cls (Cls.mk true [])

/-- `\s` as a standalone regex. -/
def rsp : Re :=
  clase [CItem.s]

/-- `\w` as a standalone regex. -/
def rw : Re :=
  clase [CItem.w]

/-- `\d` as a standalone regex. -/
def rd : Re :=
  clase [CItem.d]

def rstar (r : Re) : Re :=
  Re.star true r

def rlazy (r : Re) : Re :=
  Re.star false r

def rplus (r : Re) : Re :=
  Re.seq r (Re.star true r)

def ropt (r : Re) : Re :=
  Re.alt r Re.eps

/-! ## The pattern table (app.py lines 66-81)

Each definition transcribes one entry of the `patrones` dictionary.  The
character class `[°º.\sro]` recurs in several patterns, as does `[\s\S]`
(any character, including newlines, independently of DOTALL). -/

/-- The class `[°º.\sro]` of the source patterns. -/
def claseNro : Re :=
  clase [CItem.ch '°', CItem.ch 'º', CItem.ch '.', CItem.s, CItem.ch 'r', CItem.ch 'o']

/-- The class `[\s\S]`. -/
def claseTodo : Re :=
  clase [CItem.s, CItem.S]

/-- `(?:CONTRATO|ORDEN DE SERVICIO|ORDEN DE COMPRA)\s*(?:N[°º.\sro]+[:\s]*)?([\w\d\-\/.]+)` -/
def patronNumContrato : Re :=
  rseq [Re.alt (rlit "CONTRATO") (Re.alt (rlit "ORDEN DE SERVICIO") (rlit "ORDEN DE COMPRA")),
    rstar rsp,
    ropt (rseq [rlit "N", rplus claseNro, rstar (clase [CItem.ch ':', CItem.s])]),
    Re.group 1 (rplus (clase [CItem.w, CItem.d, CItem.ch '-', CItem.ch '/', CItem.ch '.']))]

/-- `(?:en la ciudad de|firmado el|celebrado a los|Fecha:|a los)\s*.*?(\d{1,2}\s+(?:de\s+)?\w+\s+(?:de\s+)?\d{4})` -/
def patronFecha : Re :=
  rseq [Re.alt (rlit "en la ciudad de") (Re.alt (rlit "firmado el")
      (Re.alt (rlit "celebrado a los") (Re.alt (rlit "Fecha:") (rlit "a los")))),
    rstar rsp, rlazy rany,
    Re.group 1 (rseq [Re.repn 1 2 rd, rplus rsp, ropt (rseq [rlit "de", rplus rsp]),
      rplus rw, rplus rsp, ropt (rseq [rlit "de", rplus rsp]), Re.repn 4 4 rd])]

/-- `(Adjudicaci[oó]n Simplificada|Licitaci[oó]n P[úu]blica|Concurso P[úu]blico)(?:\s*N[°º.\sro]+[:\s]*([\w\d\-\/]+))?` -/
def patronProcesoSeleccion : Re :=
  rseq [Re.group 1 (Re.alt
      (rseq [rlit "Adjudicaci", clase [CItem.ch 'o', CItem.ch 'ó'], rlit "n Simplificada"])
      (Re.alt
        (rseq [rlit "Licitaci", clase [CItem.ch 'o', CItem.ch 'ó'], rlit "n P",
          clase [CItem.ch 'ú', CItem.ch 'u'], rlit "blica"])
        (rseq [rlit "Concurso P", clase [CItem.ch 'ú', CItem.ch 'u'], rlit "blico"]))),
    ropt (rseq [rstar rsp, rlit "N", rplus claseNro, rstar (clase [CItem.ch ':', CItem.s]),
      Re.group 2 (rplus (clase [CItem.w, CItem.d, CItem.ch '-', CItem.ch '/']))])]

/-- `vigencia.*?\s+hasta\s+(.*?)(?:\.|\n|CL[ÁA]USULA)` -/
def patronVigenciaFinal : Re :=
  rseq [rlit "vigencia", rlazy rany, rplus rsp, rlit "hasta", rplus rsp,
    Re.group 1 (rlazy rany),
    Re.alt (rlit ".") (Re.alt (rlit "\n")
      (rseq [rlit "CL", clase [CItem.ch 'Á', CItem.ch 'A'], rlit "USULA"]))]

/-- `(?:Monto|Valor Total|asciende a)\s*.*?(?:S\/\.?|R\$|USD)?\s*([\d,]+(?:\.\d{2})?)` -/
def patronMontoTotal : Re :=
  rseq [Re.alt (rlit "Monto") (Re.alt (rlit "Valor Total") (rlit "asciende a")),
    rstar rsp, rlazy rany,
    ropt (Re.alt (rseq [rlit "S/", ropt (rlit ".")]) (Re.alt (rlit "R$") (rlit "USD"))),
    rstar rsp,
    Re.group 1 (rseq [rplus (clase [CItem.d, CItem.ch ',']),
      ropt (rseq [rlit ".", Re.repn 2 2 rd])])]

/-- `CONTRATISTA[\s\S]*?RUC\s*N[°º.\sro]*\s*(\d{11})` -/
def patronRucContratista : Re :=
  rseq [rlit "CONTRATISTA", rlazy claseTodo, rlit "RUC", rstar rsp, rlit "N",
    rstar claseNro, rstar rsp, Re.group 1 (Re.repn 11 11 rd)]

/-- `(?:LA\s+ENTIDAD|CONTRATANTE)[\s\S]*?RUC\s*N[°º.\sro]*\s*(\d{11})` -/
def patronRucEntidad : Re :=
  rseq [Re.alt (rseq [rlit "LA", rplus rsp, rlit "ENTIDAD"]) (rlit "CONTRATANTE"),
    rlazy claseTodo, rlit "RUC", rstar rsp, rlit "N",
    rstar claseNro, rstar rsp, Re.group 1 (Re.repn 11 11 rd)]

/-- `RESOLUCI[OÓ]N\s*(?:DECANAL|RECTORAL|DIRECTORAL)?\s*N[°º.\sro]+[:\s]*([\w\d\-\/.-]+)` -/
def patronResolucion : Re :=
  rseq [rlit "RESOLUCI", clase [CItem.ch 'O', CItem.ch 'Ó'], rlit "N", rstar rsp,
    ropt (Re.alt (rlit "DECANAL") (Re.alt (rlit "RECTORAL") (rlit "DIRECTORAL"))),
    rstar rsp, rlit "N", rplus claseNro, rstar (clase [CItem.ch ':', CItem.s]),
    Re.group 1 (rplus (clase [CItem.w, CItem.d, CItem.ch '-', CItem.ch '/',
      CItem.ch '.', CItem.ch '-']))]

/-- `(?:Ítem|Item)\s*(?:N[°º.\sro]+)?\s*[:]?\s*(\d+)` -/
def patronNumItem : Re :=
  rseq [Re.alt (rlit "Ítem") (rlit "Item"), rstar rsp,
    ropt (rseq [rlit "N", rplus claseNro]), rstar rsp,
    ropt (clase [CItem.ch ':']), rstar rsp, Re.group 1 (rplus rd)]

/-- `CL[ÁA]USULA\s+PRIMERA\s*:\s*OBJETO[\s\S]*?([\s\S]*?)(?=CL[ÁA]USULA\s+SEGUNDA|II\.\s+BASE\s+LEGAL)` -/
def patronObjetoContrato : Re :=
  rseq [rlit "CL", clase [CItem.ch 'Á', CItem.ch 'A'], rlit "USULA", rplus rsp,
    rlit "PRIMERA", rstar rsp, rlit ":", rstar rsp, rlit "OBJETO",
    rlazy claseTodo, Re.group 1 (rlazy claseTodo),
    Re.look (Re.alt
      (rseq [rlit "CL", clase [CItem.ch 'Á', CItem.ch 'A'], rlit "USULA", rplus rsp, rlit "SEGUNDA"])
      (rseq [rlit "II.", rplus rsp, rlit "BASE", rplus rsp, rlit "LEGAL"]))]

/-- `PLAZO\s+DE\s+(?:EJECUCI[OÓ]N|ENTREGA)[\s\S]*?([\s\S]*?)(?=CL[ÁA]USULA|INICIO\s+DEL\s+PLAZO)` -/
def patronPlazoEjecucion : Re :=
  rseq [rlit "PLAZO", rplus rsp, rlit "DE", rplus rsp,
    Re.alt (rseq [rlit "EJECUCI", clase [CItem.ch 'O', CItem.ch 'Ó'], rlit "N"]) (rlit "ENTREGA"),
    rlazy claseTodo, Re.group 1 (rlazy claseTodo),
    Re.look (Re.alt
      (rseq [rlit "CL", clase [CItem.ch 'Á', CItem.ch 'A'], rlit "USULA"])
      (rseq [rlit "INICIO", rplus rsp, rlit "DEL", rplus rsp, rlit "PLAZO"]))]

/-- `representad[oa]\s+(?:legalmente\s+)?por\s+([^,]+(?:,\s*Jr\.|,\s*S\.A\.C\.)?),` -/
def patronRepresentanteLegal : Re :=
  rseq [rlit "representad", clase [CItem.ch 'o', CItem.ch 'a'], rplus rsp,
    ropt (rseq [rlit "legalmente", rplus rsp]), rlit "por", rplus rsp,
    Re.group 1 (rseq [rplus (claseNeg [CItem.ch ',']),
      ropt (Re.alt (rseq [rlit ",", rstar rsp, rlit "Jr."])
        (rseq [rlit ",", rstar rsp, rlit "S.A.C."]))]),
    rlit ","]

/-- The `patrones` dictionary of `analizar_contrato`, in insertion order:
field key, pattern, and number of capture groups. -/
def patrones : List (String × Re × Nat) :=
  [("num_contrato", patronNumContrato, 1),
   ("fecha_suscripcion_contrato", patronFecha, 1),
   ("proceso_seleccion", patronProcesoSeleccion, 2),
   ("vigencia_final", patronVigenciaFinal, 1),
   ("monto_contratado_total", patronMontoTotal, 1),
   ("ruc_contratista", patronRucContratista, 1),
   ("ruc_entidad", patronRucEntidad, 1),
   ("resolucion", patronResolucion, 1),
   ("num_item", patronNumItem, 1),
   ("objeto_contrato", patronObjetoContrato, 1),
   ("plazo_ejecucion", patronPlazoEjecucion, 1),
   ("representante_legal_contratista", patronRepresentanteLegal, 1)]

/-- The value recorded for one field (app.py lines 87-99): search the text
with the field's pattern; on a match, join the non-null captured groups
with single spaces and normalize the whitespace; otherwise the sentinel
`"No encontrado"`. -/
def valorDe (patron : Re) (n : Nat) (texto : String) : String :=
  match re_search patron n texto with
  | some m => limpiar (String.intercalate " " (m.groups.filterMap id))
  | none => "No encontrado"

/-- `analizar_contrato` (app.py lines 62-101): evaluate every field of the
table independently on the same text, producing the key-value mapping in
table order. -/
def analizar_contrato (texto_contrato : String) : List (String × String) :=
  patrones.map (fun e => (e.1, valorDe e.2.1 e.2.2 texto_contrato))

/-! ## Text acquisition (app.py lines 21-60)

A page is what the loop body of `extraer_texto_con_ocr` observes: the text
that `pagina.get_text()` returns, and the outcome of the OCR call
`pytesseract.image_to_string` on the page's 300-DPI rendering — either the
recognized text or the exception it raises.  A PDF byte stream is what
`fitz.open` yields: a parse failure (the outer `except` branch) or the
page list. -/

deriving instance DecidableEq for Except

structure Pagina where
  textoDirecto : String
  resultadoOcr : Except String String
deriving DecidableEq

inductive DocPdf where
  | errorApertura (mensaje : String)
  | paginas (lista : List Pagina)
deriving DecidableEq

/-- Origin tag for the text a page contributes (the spec's PageText
`origin` flag): direct extraction, OCR output, or the direct-text fallback
after an OCR failure. -/
inductive OrigenTexto where
  | directo
  | ocr
  | ocrFallido
deriving DecidableEq

/-- The loop body of `extraer_texto_con_ocr` (app.py lines 32-52): trim
the direct text; below 100 characters, run OCR and append its output, or
on an OCR failure fall back to the trimmed direct text; otherwise append
the trimmed direct text.  Every branch appends a trailing newline.  The
second component tags where the text came from. -/
def procesarPagina (pagina : Pagina) : String × OrigenTexto :=
  let texto_directo := pyStrip pagina.textoDirecto
  if texto_directo.length < 100 then
    match pagina.resultadoOcr with
    | Except.ok texto_ocr => (texto_ocr ++ "\n", OrigenTexto.ocr)
    | Except.error _ => (texto_directo ++ "\n", OrigenTexto.ocrFallido)
  else (texto_directo ++ "\n", OrigenTexto.directo)

/-- The accumulated `texto_completo` over the page loop. -/
def textoPaginas (ps : List Pagina) : String :=
  ps.foldl (fun acc p => acc ++ (procesarPagina p).1) ""

/-- `extraer_texto_con_ocr` (app.py lines 21-60): on a parse failure the
pair `(None, mensaje)`; otherwise the concatenated page text and no
error. -/
def extraer_texto_con_ocr (doc : DocPdf) : Option String × Option String :=
  match doc with
  | DocPdf.errorApertura e => (none, some ("Error Crítico al procesar el PDF: " ++ e))
  | DocPdf.paginas ps => (some (textoPaginas ps), none)

/-- The warnings printed by the page loop (app.py line 49): one per page
whose direct text is below the threshold and whose OCR call raised, with
the 1-based page number. -/
def advertenciasAux : Nat → List Pagina → List String
  | _, [] => []
  | i, p :: ps =>
    let resto := advertenciasAux (i + 1) ps
    if (pyStrip p.textoDirecto).length < 100 then
      match p.resultadoOcr with
      | Except.error e =>
        ("Advertencia: OCR falló en la página " ++ toString (i + 1) ++ ": " ++ e) :: resto
      | Except.ok _ => resto
    else resto

def advertenciasOcr (ps : List Pagina) : List String :=
  advertenciasAux 0 ps

/-! ## Batch pipeline (app.py lines 114-195)

An upload is a named byte stream; its bytes are modelled by their parser
interpretations: what `fitz.open` yields on them, what
`zipfile.is_zipfile` answers, and the ZIP entry list (entry name together
with the `fitz` interpretation of the entry's bytes, since the only thing
done with `zip_ref.read(item_name)` is to feed it to
`extraer_texto_con_ocr`). -/

structure UploadFile where
  filename : String
  contenidoPdf : DocPdf
  esZipValido : Bool
  entradasZip : List (String × DocPdf)
deriving DecidableEq

/-- A row of the result table: field keys mapped to values, with the
`Archivo` key appended last (Python dict insertion order). -/
abbrev Registro := List (String × String)

/-- The `(resultados_ok, errores_proceso)` accumulator pair. -/
abbrev Acumulado := List Registro × List String

/-- Processing one PDF byte stream through `extraer_texto_con_ocr`
followed by the check `if error:` — either the acquired text or the error
string.  (The error string of the source always starts with a non-empty
prefix, so Python's truthiness test coincides with the `some` case; in
the no-error case the text component is always present.) -/
def resultadoDoc (doc : DocPdf) : Except String String :=
  match extraer_texto_con_ocr doc with
  | (_, some e) => Except.error e
  | (t, none) => Except.ok (t.getD "")

/-- The entry filter of the ZIP loop (app.py line 140):
`item_name.lower().endswith('.pdf') and not item_name.startswith('__MACOSX')`. -/
def filtroEntrada (item_name : String) : Bool :=
  termina (pyLowerStr item_name) ".pdf" && !(comienza item_name "__MACOSX")

/-- The body of the ZIP entry loop (app.py lines 138-154): entries passing
the filter are read and processed; an acquisition error appends an error
string carrying both entry and archive names, success appends the record
tagged with the in-archive entry name. -/
def procesarEntradaZip (nombre_archivo : String) (acc : Acumulado)
    (entrada : String × DocPdf) : Acumulado :=
  if filtroEntrada entrada.1 then
    match resultadoDoc entrada.2 with
    | Except.error e =>
      (acc.1, acc.2 ++ ["Error en \x27" ++ entrada.1 ++ "\x27 (dentro de "
        ++ nombre_archivo ++ "): " ++ e])
    | Except.ok texto =>
      (acc.1 ++ [analizar_contrato texto ++ [("Archivo", entrada.1)]], acc.2)
  else acc

/-- The body of the upload loop (app.py lines 124-175): a `.zip` name is
validated and its entries traversed; a `.pdf` name is processed as a
single document; anything else is ignored.  Both suffix checks are
Python's case-sensitive `str.endswith`. -/
def procesarArchivo (acc : Acumulado) (archivo : UploadFile) : Acumulado :=
  if termina archivo.filename ".zip" then
    if archivo.esZipValido then
      archivo.entradasZip.foldl (procesarEntradaZip archivo.filename) acc
    else (acc.1, acc.2 ++ ["\x27" ++ archivo.filename ++ "\x27 no es un archivo ZIP válido."])
  else if termina archivo.filename ".pdf" then
    match resultadoDoc archivo.contenidoPdf with
    | Except.error e => (acc.1, acc.2 ++ ["\x27" ++ archivo.filename ++ "\x27: " ++ e])
    | Except.ok texto =>
      (acc.1 ++ [analizar_contrato texto ++ [("Archivo", archivo.filename)]], acc.2)
  else acc

/-- The whole upload loop: successes and errors accumulated over the
batch, in input order. -/
def procesarLote (files : List UploadFile) : Acumulado :=
  files.foldl procesarArchivo ([], [])

/-- The JSON response of `/process`: overall success flag, error strings,
and the table rows when present. -/
structure Respuesta where
  success : Bool
  errors : List String
  tabla : Option (List Registro)
deriving DecidableEq

/-- The DataFrame column reordering (app.py lines 183-184): the `Archivo`
column first, the field columns after it in their original order. -/
def reordenarColumnas (r : Registro) : Registro :=
  r.filter (fun kv => kv.1 == "Archivo") ++ r.filter (fun kv => kv.1 != "Archivo")

/-- `process_files` (app.py lines 114-195), after the upload-presence
guard: run the loop; with no successes answer failure with the fixed
message prepended to the collected errors (app.py lines 179-180),
otherwise answer success carrying the table and the collected errors. -/
def process_files (files : List UploadFile) : Respuesta :=
  if (procesarLote files).1.isEmpty then
    Respuesta.mk false
      ("No se pudo extraer información de ningún archivo." :: (procesarLote files).2) none
  else
    Respuesta.mk true (procesarLote files).2
      (some ((procesarLote files).1.map reordenarColumnas))

/-- Expected number of outcome contributions of one upload: one per
filtered entry of a valid container, one for an invalid container's error,
one for a single document, none for an ignored name. -/
def contribucion (f : UploadFile) : Nat :=
  if termina f.filename ".zip" then
    if f.esZipValido then (f.entradasZip.filter (fun en => filtroEntrada en.1)).length
    else 1
  else if termina f.filename ".pdf" then 1 else 0


/-! ## Concrete test inputs for witnesses and counterexamples -/

/-- A page whose direct text comfortably exceeds the 100-character
threshold; its OCR field is present but must never be consulted. -/
def paginaLarga : Pagina :=
  Pagina.mk (String.mk (List.replicate 120 'a')) (Except.ok "TEXTO OCR")

/-- A page with short direct text whose OCR call raises. -/
def paginaCorta : Pagina :=
  Pagina.mk "  hola  " (Except.error "tesseract ausente")

/-- The one-page document of the end-to-end extraction scenario: its text
contains `CONTRATO N° 045-2023-ABC`, padded past the OCR threshold with
characters no pattern matches. -/
def paginaC4 : Pagina :=
  Pagina.mk ("CONTRATO N° 045-2023-ABC\n" ++ String.mk (List.replicate 80 'z'))
    (Except.ok "irrelevante")

def docC4 : DocPdf :=
  DocPdf.paginas [paginaC4]

/-- The text the acquirer produces for `docC4`. -/
def textoC4 : String :=
  pyStrip paginaC4.textoDirecto ++ "\n"

/-- An upload whose PDF bytes fail to parse. -/
def archivoMalo : UploadFile :=
  UploadFile.mk "malo.pdf" (DocPdf.errorApertura "xref corrupto") false []

/-- An upload whose name matches neither accepted suffix. -/
def archivoTexto : UploadFile :=
  UploadFile.mk "notas.txt" (DocPdf.paginas []) false []

/-- A parseable PDF upload with zero pages. -/
def archivoVacio : UploadFile :=
  UploadFile.mk "vacio.pdf" (DocPdf.paginas []) false []

/-- A text on which the selection-process pattern matches with both of its
capture groups participating. -/
def textoProceso : String :=
  "Adjudicación Simplificada N° 123-2023"

/-! ## Helper lemmas -/

theorem strAppendNil (a : String) : a ++ "" = a := by
  apply String.ext
  simp [String.data_append]

theorem strNilAppend (a : String) : "" ++ a = a := by
  apply String.ext
  simp [String.data_append]

theorem strAppendAssoc (a b c : String) : a ++ b ++ c = a ++ (b ++ c) := by
  apply String.ext
  simp [String.data_append]

theorem textoPaginas_foldl (ps : List Pagina) (s : String) :
    ps.foldl (fun acc p => acc ++ (procesarPagina p).1) s = s ++ textoPaginas ps := by
  induction ps generalizing s with
  | nil => simp [textoPaginas, strAppendNil]
  | cons p ps ih =>
    simp only [List.foldl_cons, textoPaginas]
    rw [ih, ih ("" ++ (procesarPagina p).1), strNilAppend, strAppendAssoc]

theorem textoPaginas_descompuesto (pre post : List Pagina) (p : Pagina) :
    textoPaginas (pre ++ p :: post)
      = textoPaginas pre ++ ((procesarPagina p).1 ++ textoPaginas post) := by
  show List.foldl _ "" (pre ++ p :: post) = _
  rw [List.foldl_append, List.foldl_cons, textoPaginas_foldl, textoPaginas_foldl,
    strNilAppend, strAppendAssoc]

theorem advertenciasAux_append (pre rest : List Pagina) (i : Nat) :
    advertenciasAux i (pre ++ rest)
      = advertenciasAux i pre ++ advertenciasAux (i + pre.length) rest := by
  induction pre generalizing i with
  | nil => simp [advertenciasAux]
  | cons p pre ih =>
    have hidx : i + 1 + pre.length = i + (p :: pre).length := by
      simp [List.length_cons]; omega
    simp only [List.cons_append, advertenciasAux, List.append_eq]
    rw [ih (i + 1), hidx]
    by_cases h : (pyStrip p.textoDirecto).length < 100
    · simp only [h, if_true]
      cases p.resultadoOcr with
      | error e => simp
      | ok t => simp
    · simp only [h, if_false]

theorem lookup_map_valor (l : List (String × Re × Nat)) (texto clave : String)
    (patron : Re) (n : Nat) (hnd : (l.map (fun e => e.1)).Nodup)
    (hm : (clave, patron, n) ∈ l) :
    List.lookup clave (l.map (fun e => (e.1, valorDe e.2.1 e.2.2 texto)))
      = some (valorDe patron n texto) := by
  induction l with
  | nil => cases hm
  | cons e l ih =>
    rcases List.mem_cons.mp hm with heq | hmem
    · subst heq
      simp [List.lookup]
    · have hkeys : (l.map (fun e => e.1)).Nodup := (List.nodup_cons.mp (by simpa using hnd)).2
      have hne : ¬ (clave == e.1) = true := by
        intro hb
        have hc : clave = e.1 := by simpa using hb
        have : clave ∈ l.map (fun e => e.1) :=
          List.mem_map_of_mem (fun e => e.1) hmem
        exact (List.nodup_cons.mp (by simpa using hnd)).1 (hc ▸ this)
      simp only [List.map_cons, List.lookup]
      rw [Bool.of_not_eq_true hne]
      exact ih hkeys hmem

theorem entrada_longitudes (nz : String) (acc : Acumulado) (en : String × DocPdf) :
    (procesarEntradaZip nz acc en).1.length + (procesarEntradaZip nz acc en).2.length
      = acc.1.length + acc.2.length + (if filtroEntrada en.1 then 1 else 0) := by
  unfold procesarEntradaZip
  by_cases hf : filtroEntrada en.1
  · simp only [hf, if_true]
    cases hr : resultadoDoc en.2 with
    | error e => simp [List.length_append]; omega
    | ok t => simp [List.length_append]; omega
  · simp [hf]

theorem entradas_fold_longitudes (nz : String) (ens : List (String × DocPdf)) (acc : Acumulado) :
    (ens.foldl (procesarEntradaZip nz) acc).1.length
        + (ens.foldl (procesarEntradaZip nz) acc).2.length
      = acc.1.length + acc.2.length + (ens.filter (fun en => filtroEntrada en.1)).length := by
  induction ens generalizing acc with
  | nil => simp
  | cons en ens ih =>
    simp only [List.foldl_cons]
    rw [ih, entrada_longitudes]
    by_cases hf : filtroEntrada en.1
    · simp [hf, List.filter_cons]; omega
    · simp [hf, List.filter_cons]

theorem archivo_longitudes (acc : Acumulado) (f : UploadFile) :
    (procesarArchivo acc f).1.length + (procesarArchivo acc f).2.length
      = acc.1.length + acc.2.length + contribucion f := by
  unfold procesarArchivo contribucion
  by_cases hz : termina f.filename ".zip"
  · simp only [hz, if_true]
    by_cases hv : f.esZipValido
    · simp only [hv, if_true]
      exact entradas_fold_longitudes f.filename f.entradasZip acc
    · simp [hv, List.length_append]; omega
  · simp only [hz, if_false]
    by_cases hp : termina f.filename ".pdf"
    · simp only [hp, if_true]
      cases hr : resultadoDoc f.contenidoPdf with
      | error e => simp [List.length_append]; omega
      | ok t => simp [List.length_append]; omega
    · simp [hp]

theorem lote_longitudes (files : List UploadFile) (acc : Acumulado) :
    (files.foldl procesarArchivo acc).1.length + (files.foldl procesarArchivo acc).2.length
      = acc.1.length + acc.2.length + (files.map contribucion).sum := by
  induction files generalizing acc with
  | nil => simp
  | cons f files ih =>
    simp only [List.foldl_cons, List.map_cons, List.sum_cons]
    rw [ih, archivo_longitudes]
    omega

/-! ## Claims -/

/-- Claim C1: for every page whose direct-extracted, trimmed text has
length at least 100 characters, the acquirer never invokes OCR for that
page (the page's result does not depend on the OCR outcome at all, and is
tagged `directo`) and appends that direct text plus a trailing newline
unchanged to the accumulated document text, wherever the page sits in the
document. -/
theorem c1_pagina_larga_sin_ocr (p : Pagina)
    (h : 100 ≤ (pyStrip p.textoDirecto).length) :
    procesarPagina p = (pyStrip p.textoDirecto ++ "\n", OrigenTexto.directo)
    ∧ (∀ otroOcr : Except String String,
        procesarPagina (Pagina.mk p.textoDirecto otroOcr)
          = (pyStrip p.textoDirecto ++ "\n", OrigenTexto.directo))
    ∧ (∀ pre post : List Pagina,
        extraer_texto_con_ocr (DocPdf.paginas (pre ++ p :: post))
          = (some (textoPaginas pre ++ ((pyStrip p.textoDirecto ++ "\n") ++ textoPaginas post)),
             none)) := by
  have hn : ¬ (pyStrip p.textoDirecto).length < 100 := Nat.not_lt.mpr h
  have h1 : procesarPagina p = (pyStrip p.textoDirecto ++ "\n", OrigenTexto.directo) := by
    unfold procesarPagina
    simp [hn]
  refine ⟨h1, ?_, ?_⟩
  · intro otroOcr
    unfold procesarPagina
    simp [hn]
  · intro pre post
    show (some (textoPaginas (pre ++ p :: post)), (none : Option String))
      = (some (textoPaginas pre ++ ((pyStrip p.textoDirecto ++ "\n") ++ textoPaginas post)), none)
    rw [textoPaginas_descompuesto, h1]

/-- Witness for C1 at a concrete page of 120 non-whitespace characters. -/
theorem c1_pagina_larga_sin_ocr_testigo :
    procesarPagina paginaLarga
      = (pyStrip paginaLarga.textoDirecto ++ "\n", OrigenTexto.directo)
    ∧ extraer_texto_con_ocr (DocPdf.paginas ([] ++ paginaLarga :: []))
      = (some (textoPaginas [] ++ ((pyStrip paginaLarga.textoDirecto ++ "\n") ++ textoPaginas [])),
         none) :=
  ⟨(c1_pagina_larga_sin_ocr paginaLarga (by decide)).1,
   (c1_pagina_larga_sin_ocr paginaLarga (by decide)).2.2 [] []⟩

/-- Claim C2: for every page whose direct-extracted, trimmed text has
fewer than 100 characters, OCR is invoked (a successful OCR outcome is
what the page contributes); if the OCR step raises, the page's trimmed
direct text plus a trailing newline is appended instead of being dropped,
the failure appears in the warning log with its 1-based page number, and
the document is still acquired with no error — and a single-document
upload containing such a page still lands in the successes, never in the
errors. -/
theorem c2_ocr_fallido_respaldo (p : Pagina)
    (h : (pyStrip p.textoDirecto).length < 100) :
    (∀ t, p.resultadoOcr = Except.ok t → procesarPagina p = (t ++ "\n", OrigenTexto.ocr))
    ∧ (∀ e, p.resultadoOcr = Except.error e →
        procesarPagina p = (pyStrip p.textoDirecto ++ "\n", OrigenTexto.ocrFallido)
        ∧ (∀ pre post : List Pagina,
            extraer_texto_con_ocr (DocPdf.paginas (pre ++ p :: post))
              = (some (textoPaginas pre ++ ((pyStrip p.textoDirecto ++ "\n") ++ textoPaginas post)),
                 none)
            ∧ ("Advertencia: OCR falló en la página " ++ toString (pre.length + 1) ++ ": " ++ e)
                ∈ advertenciasOcr (pre ++ p :: post))
        ∧ (∀ (acc : Acumulado) (nombre : String) (z : Bool) (ents : List (String × DocPdf)),
            termina nombre ".zip" = false → termina nombre ".pdf" = true →
            procesarArchivo acc (UploadFile.mk nombre (DocPdf.paginas [p]) z ents)
              = (acc.1 ++ [analizar_contrato (pyStrip p.textoDirecto ++ "\n")
                  ++ [("Archivo", nombre)]], acc.2))) := by
  constructor
  · intro t ht
    unfold procesarPagina
    simp [h, ht]
  · intro e he
    have hp : procesarPagina p = (pyStrip p.textoDirecto ++ "\n", OrigenTexto.ocrFallido) := by
      unfold procesarPagina
      simp [h, he]
    have htexto : textoPaginas [p] = pyStrip p.textoDirecto ++ "\n" := by
      unfold textoPaginas
      simp only [List.foldl_cons, List.foldl_nil, hp]
      exact strNilAppend _
    refine ⟨hp, ?_, ?_⟩
    · intro pre post
      constructor
      · show (some (textoPaginas (pre ++ p :: post)), (none : Option String))
          = (some (textoPaginas pre ++ ((pyStrip p.textoDirecto ++ "\n") ++ textoPaginas post)),
             none)
        rw [textoPaginas_descompuesto, hp]
      · unfold advertenciasOcr
        rw [advertenciasAux_append]
        refine List.mem_append_right _ ?_
        unfold advertenciasAux
        simp only [h, if_true, he, Nat.zero_add]
        exact List.mem_cons_self _ _
    · intro acc nombre z ents hz hpdf
      have hr : resultadoDoc (DocPdf.paginas [p]) = Except.ok (textoPaginas [p]) := rfl
      unfold procesarArchivo
      simp only [hz, hpdf, if_false, if_true, Bool.false_eq_true]
      rw [hr, htexto]

/-- Witness for C2 at a concrete short page whose OCR raises. -/
theorem c2_ocr_fallido_respaldo_testigo :
    procesarPagina paginaCorta = (pyStrip paginaCorta.textoDirecto ++ "\n", OrigenTexto.ocrFallido)
    ∧ ("Advertencia: OCR falló en la página " ++ toString (List.length ([] : List Pagina) + 1)
        ++ ": " ++ "tesseract ausente") ∈ advertenciasOcr ([] ++ paginaCorta :: []) :=
  ⟨((c2_ocr_fallido_respaldo paginaCorta (by decide)).2 "tesseract ausente" (by decide)).1,
   (((c2_ocr_fallido_respaldo paginaCorta (by decide)).2 "tesseract ausente"
      (by decide)).2.1 [] []).2⟩

/-- Claim C6: the field extractor is a pure function of the input text —
running it on two identical copies of a text yields identical mappings
(in this embedding the extractor is deterministic by construction: it
reads nothing but its argument and the constant pattern table). -/
theorem c6_extraccion_determinista (t1 t2 : String) (h : t1 = t2) :
    analizar_contrato t1 = analizar_contrato t2 := by
  rw [h]

/-- Witness for C6. -/
theorem c6_extraccion_determinista_testigo :
    analizar_contrato "CONTRATO" = analizar_contrato "CONTRATO" :=
  c6_extraccion_determinista "CONTRATO" "CONTRATO" rfl

/-- Claim C7: top-level inputs are classified by case-sensitive suffix
checks — a name ending in neither `.zip` nor `.pdf` (including the
uppercase variants `.PDF` / `.ZIP`) is skipped outright; ZIP entries are
processed exactly when their name ends in `.pdf` case-insensitively and
does not start with `__MACOSX`, each processed unit contributing exactly
one outcome. -/
theorem c7_clasificacion_por_sufijo :
    (∀ (acc : Acumulado) (f : UploadFile),
      termina f.filename ".zip" = false → termina f.filename ".pdf" = false →
      procesarArchivo acc f = acc)
    ∧ (∀ (acc : Acumulado) (d : DocPdf) (z : Bool) (ents : List (String × DocPdf)),
        procesarArchivo acc (UploadFile.mk "contrato.PDF" d z ents) = acc
        ∧ procesarArchivo acc (UploadFile.mk "lote.ZIP" d z ents) = acc)
    ∧ (∀ (nz : String) (acc : Acumulado) (nombre : String) (d : DocPdf),
        filtroEntrada nombre = false → procesarEntradaZip nz acc (nombre, d) = acc)
    ∧ (∀ (nz : String) (acc : Acumulado) (nombre : String) (d : DocPdf),
        filtroEntrada nombre = true →
        (procesarEntradaZip nz acc (nombre, d)).1.length
            + (procesarEntradaZip nz acc (nombre, d)).2.length
          = acc.1.length + acc.2.length + 1)
    ∧ (∀ (acc : Acumulado) (f : UploadFile),
        termina f.filename ".zip" = false → termina f.filename ".pdf" = true →
        (procesarArchivo acc f).1.length + (procesarArchivo acc f).2.length
          = acc.1.length + acc.2.length + 1)
    ∧ filtroEntrada "carpeta/Contrato.PDF" = true
    ∧ filtroEntrada "__MACOSX/contrato.pdf" = false := by
  refine ⟨?_, ?_, ?_, ?_, ?_, by decide, by decide⟩
  · intro acc f h1 h2
    unfold procesarArchivo
    simp [h1, h2]
  · intro acc d z ents
    have h1 : termina "contrato.PDF" ".zip" = false := by decide
    have h2 : termina "contrato.PDF" ".pdf" = false := by decide
    have h3 : termina "lote.ZIP" ".zip" = false := by decide
    have h4 : termina "lote.ZIP" ".pdf" = false := by decide
    constructor
    · unfold procesarArchivo
      simp [h1, h2]
    · unfold procesarArchivo
      simp [h3, h4]
  · intro nz acc nombre d hf
    unfold procesarEntradaZip
    simp [hf]
  · intro nz acc nombre d hf
    have := entrada_longitudes nz acc (nombre, d)
    rw [this, hf]
    simp
  · intro acc f h1 h2
    have := archivo_longitudes acc f
    rw [this]
    simp [contribucion, h1, h2]

/-- Witness for C7: a `.txt` upload and a `__MACOSX` entry are skipped. -/
theorem c7_clasificacion_por_sufijo_testigo :
    procesarArchivo ([], []) archivoTexto = ([], [])
    ∧ procesarEntradaZip "lote.zip" ([], []) ("__MACOSX/contrato.pdf", DocPdf.paginas []) = ([], [])
    ∧ (procesarEntradaZip "lote.zip" ([], []) ("carpeta/Contrato.PDF", DocPdf.paginas [])).1.length
        + (procesarEntradaZip "lote.zip" ([], []) ("carpeta/Contrato.PDF", DocPdf.paginas [])).2.length
      = 0 + 0 + 1 :=
  ⟨c7_clasificacion_por_sufijo.1 ([], []) archivoTexto (by decide) (by decide),
   c7_clasificacion_por_sufijo.2.2.1 "lote.zip" ([], []) "__MACOSX/contrato.pdf"
     (DocPdf.paginas []) (by decide),
   c7_clasificacion_por_sufijo.2.2.2.1 "lote.zip" ([], []) "carpeta/Contrato.PDF"
     (DocPdf.paginas []) (by decide)⟩

/-- Claim C8: over any input sequence, the number of successes plus the
number of error strings equals the sum over the inputs of their expected
contributions (one per processed document or invalid archive), so every
processed document lands in exactly one of the two sequences; an input
matching neither accepted suffix contributes nothing and leaves the
accumulator untouched. -/
theorem c8_invariante_lote (files : List UploadFile) :
    (procesarLote files).1.length + (procesarLote files).2.length
        = (files.map contribucion).sum
    ∧ (∀ f : UploadFile,
        termina f.filename ".zip" = false → termina f.filename ".pdf" = false →
        contribucion f = 0 ∧ ∀ acc : Acumulado, procesarArchivo acc f = acc) := by
  constructor
  · have h := lote_longitudes files ([], [])
    simpa [procesarLote] using h
  · intro f h1 h2
    constructor
    · simp [contribucion, h1, h2]
    · intro acc
      unfold procesarArchivo
      simp [h1, h2]

/-- Witness for C8 on a concrete two-input batch. -/
theorem c8_invariante_lote_testigo :
    (procesarLote [archivoMalo, archivoTexto]).1.length
        + (procesarLote [archivoMalo, archivoTexto]).2.length
      = ([archivoMalo, archivoTexto].map contribucion).sum
    ∧ contribucion archivoTexto = 0 :=
  ⟨(c8_invariante_lote [archivoMalo, archivoTexto]).1,
   ((c8_invariante_lote [archivoMalo, archivoTexto]).2 archivoTexto (by decide) (by decide)).1⟩

/-- Claim C9: whenever the success list ends up empty, the response
signals overall failure and still carries every collected error string
(after the fixed header message). -/
theorem c9_lote_sin_exitos (files : List UploadFile)
    (h : (procesarLote files).1 = []) :
    (process_files files).success = false
    ∧ (process_files files).errors
        = "No se pudo extraer información de ningún archivo." :: (procesarLote files).2 := by
  unfold process_files
  rw [h]
  simp

/-- Witness for C9: a batch whose only document fails to parse. -/
theorem c9_lote_sin_exitos_testigo :
    (process_files [archivoMalo]).success = false
    ∧ (process_files [archivoMalo]).errors
        = "No se pudo extraer información de ningún archivo." :: (procesarLote [archivoMalo]).2 :=
  c9_lote_sin_exitos [archivoMalo] (by decide)

/-- Claim C10: text acquisition satisfies its error contract — on every
input it returns exactly one of (text, no error) or (no text, error) and,
being a total function, never raises; a parseable document with zero
pages yields the empty string with no error, the extractor maps the empty
string to the sentinel on every field, and downstream such a document is
appended to the successes as an all-sentinel record rather than to the
errors. -/
theorem c10_contrato_total_adquisicion :
    (∀ doc : DocPdf,
      (∃ t, extraer_texto_con_ocr doc = (some t, none))
      ∨ (∃ e, extraer_texto_con_ocr doc = (none, some e)))
    ∧ extraer_texto_con_ocr (DocPdf.paginas []) = (some "", none)
    ∧ (analizar_contrato "").all (fun kv => kv.2 == "No encontrado") = true
    ∧ (∀ acc : Acumulado,
        procesarArchivo acc archivoVacio
          = (acc.1 ++ [analizar_contrato "" ++ [("Archivo", "vacio.pdf")]], acc.2)) := by
  refine ⟨?_, rfl, by decide, ?_⟩
  · intro doc
    cases doc with
    | errorApertura e => exact Or.inr ⟨_, rfl⟩
    | paginas ps => exact Or.inl ⟨_, rfl⟩
  · intro acc
    rfl

/-- Counterexample to claim C3 as stated: on the empty text the contract
pattern has no match, yet the recorded value is not the claimed string
`"not found"` — the source's sentinel (app.py line 99) is the Spanish
`"No encontrado"`. -/
theorem c3_contraejemplo :
    re_search patronNumContrato 1 "" = none
    ∧ List.lookup "num_contrato" (analizar_contrato "") ≠ some "not found"
    ∧ List.lookup "num_contrato" (analizar_contrato "") = some "No encontrado" := by
  refine ⟨by decide, by decide, by decide⟩

/-- Claim C3 (amended): for every input text and every field of the
pattern table, if the field's pattern has no match then the value
recorded under the field's key is exactly the sentinel `"No encontrado"`
— in particular the key is present and its value is not empty. -/
theorem c3_sin_coincidencia_centinela (texto clave : String) (patron : Re) (n : Nat)
    (hm : (clave, patron, n) ∈ patrones)
    (hnone : re_search patron n texto = none) :
    List.lookup clave (analizar_contrato texto) = some "No encontrado" := by
  have h := lookup_map_valor patrones texto clave patron n (by decide) hm
  have hv : valorDe patron n texto = "No encontrado" := by
    unfold valorDe
    rw [hnone]
  rw [show analizar_contrato texto
      = patrones.map (fun e => (e.1, valorDe e.2.1 e.2.2 texto)) from rfl, h, hv]

/-- Witness for C3 (amended) at the empty text and the contract-number
field. -/
theorem c3_sin_coincidencia_centinela_testigo :
    List.lookup "num_contrato" (analizar_contrato "") = some "No encontrado" :=
  c3_sin_coincidencia_centinela "" "num_contrato" patronNumContrato 1 (by decide) (by decide)

/-- Counterexample to claim C4 as stated: acquiring the one-page document
whose text contains `CONTRATO N° 045-2023-ABC` (and matches no other
pattern) and extracting it records `045-2023-ABC` for the contract
number, but the remaining fields do not carry the claimed string
`"not found"`. -/
theorem c4_contraejemplo :
    extraer_texto_con_ocr docC4 = (some textoC4, none)
    ∧ List.lookup "num_contrato" (analizar_contrato textoC4) = some "045-2023-ABC"
    ∧ List.lookup "fecha_suscripcion_contrato" (analizar_contrato textoC4) ≠ some "not found" := by
  refine ⟨by decide, by decide, by decide⟩

/-- Claim C4 (amended): on the acquired text of that one-page document
the extractor returns `num_contrato = "045-2023-ABC"` and the sentinel
`"No encontrado"` for every other field, in table order. -/
theorem c4_escenario_un_campo :
    extraer_texto_con_ocr docC4 = (some textoC4, none)
    ∧ analizar_contrato textoC4 =
      [("num_contrato", "045-2023-ABC"),
       ("fecha_suscripcion_contrato", "No encontrado"),
       ("proceso_seleccion", "No encontrado"),
       ("vigencia_final", "No encontrado"),
       ("monto_contratado_total", "No encontrado"),
       ("ruc_contratista", "No encontrado"),
       ("ruc_entidad", "No encontrado"),
       ("resolucion", "No encontrado"),
       ("num_item", "No encontrado"),
       ("objeto_contrato", "No encontrado"),
       ("plazo_ejecucion", "No encontrado"),
       ("representante_legal_contratista", "No encontrado")] := by
  refine ⟨by decide, by decide⟩

/-- Claim C5: whenever a field's pattern matches, the recorded value is
the non-null captured groups joined in group order by single spaces,
whitespace-normalized by `limpiar` (collapse every whitespace run to one
space, trim the ends) — stated under the claim's hypothesis that at
least two groups participated. -/
theorem c5_grupos_multiples (texto clave : String) (patron : Re) (n : Nat) (m : PyMatch)
    (hm : (clave, patron, n) ∈ patrones)
    (hs : re_search patron n texto = some m)
    (hg : 2 ≤ (m.groups.filterMap id).length) :
    List.lookup clave (analizar_contrato texto)
      = some (limpiar (String.intercalate " " (m.groups.filterMap id))) := by
  have h := lookup_map_valor patrones texto clave patron n (by decide) hm
  have hv : valorDe patron n texto
      = limpiar (String.intercalate " " (m.groups.filterMap id)) := by
    unfold valorDe
    rw [hs]
  rw [show analizar_contrato texto
      = patrones.map (fun e => (e.1, valorDe e.2.1 e.2.2 texto)) from rfl, h, hv]

/-- Witness for C5: the selection-process pattern matches `textoProceso`
with both groups participating, and the recorded value is their
space-joined normalization. -/
theorem c5_grupos_multiples_testigo :
    List.lookup "proceso_seleccion" (analizar_contrato textoProceso)
      = some (limpiar (String.intercalate " "
          ((PyMatch.mk [some "Adjudicación Simplificada", some "123-2023"]).groups.filterMap id))) :=
  c5_grupos_multiples textoProceso "proceso_seleccion" patronProcesoSeleccion 2
    (PyMatch.mk [some "Adjudicación Simplificada", some "123-2023"])
    (by decide) (by decide) (by decide)
